import Mathlib

/-!
Shallow embedding of the real-time messaging and presence subsystem of the
`messenger` repository (`src/main.py` Socket.IO handlers, `src/db.py`
`Database` methods).  Python dynamic values arriving in event payloads are
modelled by `PyVal`; the SQLite store is modelled by `DB`, a record of row
lists together with the next autoassigned row ids and the store clock used
for `CURRENT_TIMESTAMP`.  Each Socket.IO handler becomes a pure function
returning the updated store, the outbound emissions, and how the handler
finished (normal completion, a silent `return`, or an uncaught exception).
-/

/-- A dynamically typed value from a Socket.IO event payload: Python
`None`, an `int`, or a `str`. -/
inductive PyVal where
  | none : PyVal
  | int : Int → PyVal
  | str : String → PyVal
deriving DecidableEq, Repr

/-- Python truthiness for the values handlers test with `if not x`:
`None`, `0` and `""` are falsy. -/
def pyFalsy : PyVal → Bool
  | .none => true
  | .int n => n == 0
  | .str s => s == ""

/-- Python `a or b` as used in `data.get('id') or data.get('message_id')`. -/
def pyOr (a b : PyVal) : PyVal := if pyFalsy a then b else a

/-- Truthiness of an `Optional[str]` (the session username). -/
def falsyOptStr : Option String → Bool
  | Option.none => true
  | Option.some s => s == ""

/-- Truthiness of an `Optional[int]` (a resolved or missing user id). -/
def falsyOptInt : Option Int → Bool
  | Option.none => true
  | Option.some n => n == 0

def isDigitChar (ch : Char) : Bool := '0' ≤ ch && ch ≤ '9'

/-- Digit run to a number; `Option.none` when empty or a non-digit occurs. -/
def pyDigits? (cs : List Char) : Option Nat :=
  if cs.isEmpty then Option.none
  else if cs.all isDigitChar then
    Option.some (cs.foldl (fun acc ch => 10 * acc + (ch.toNat - 48)) 0)
  else Option.none

/-- Strip leading and trailing spaces (model of the whitespace tolerance of
Python `int`; only the ASCII space is modelled). -/
def stripSpaces (cs : List Char) : List Char :=
  ((cs.dropWhile (fun ch => ch = ' ')).reverse.dropWhile (fun ch => ch = ' ')).reverse

/-- Python `int(s)` on a `str`: optional sign, then digits, surrounding
whitespace ignored; `Option.none` models the `ValueError`. -/
def pyIntOfStr? (s : String) : Option Int :=
  match stripSpaces s.toList with
  | '-' :: cs => (pyDigits? cs).map (fun n => -(n : Int))
  | '+' :: cs => (pyDigits? cs).map (fun n => (n : Int))
  | cs => (pyDigits? cs).map (fun n => (n : Int))

/-- Python `int(x)` at the call sites that catch `TypeError` and
`ValueError`: `None` and unparseable strings give `Option.none`. -/
def pyInt? : PyVal → Option Int
  | .none => Option.none
  | .int n => Option.some n
  | .str s => pyIntOfStr? s

def splitCharAux (c : Char) : List Char → List Char → List String
  | [], acc => [String.mk acc.reverse]
  | x :: xs, acc =>
      if x = c then String.mk acc.reverse :: splitCharAux c xs []
      else splitCharAux c xs (x :: acc)

/-- Python `s.split(':')`: every maximal `':'`-free run, in order; `""`
gives `[""]`. -/
def splitColon (s : String) : List String := splitCharAux ':' s.toList []

/-- Outcome of `user1, user2 = room.split(':')` followed by the two
`int(...)` calls in the `personal_message` handler: `badShape` is the
unpacking `ValueError` (raised outside the `try`), `badInt` the caught
conversion `ValueError`. -/
inductive PairParse where
  | ok (a b : Int) : PairParse
  | badInt : PairParse
  | badShape : PairParse
deriving DecidableEq, Repr

def parsePairRoom (room : String) : PairParse :=
  match splitColon room with
  | [s1, s2] =>
    match pyIntOfStr? s1, pyIntOfStr? s2 with
    | Option.some a, Option.some b => .ok a b
    | _, _ => .badInt
  | _ => .badShape

/-- The canonical personal-pair room `f"{a}:{b}"` after
`a, b = sorted([user_id, peer_id])` (src/main.py lines 115-116). -/
def canonicalPair (u v : Int) : String :=
  toString (min u v) ++ ":" ++ toString (max u v)

/-- The personal presence room `f'user:{user_id}'`. -/
def userRoom (uid : Int) : String := "user:" ++ toString uid

/-- A row of `personal_messages` (src/db.py): `sender_id` is nullable in
the schema and the handler can insert a `NULL` sender. -/
structure PMsgRow where
  id : Int
  sender_id : Option Int
  to_user_id : Int
  content : PyVal
  timestamp : Int
deriving DecidableEq, Repr

/-- A row of `chat_messages`. -/
structure CMsgRow where
  id : Int
  chat_id : Int
  sender_id : Option Int
  content : PyVal
  timestamp : Int
deriving DecidableEq, Repr

/-- A row of `channel_messages`. -/
structure ChMsgRow where
  id : Int
  channel_id : Int
  sender_id : Option Int
  content : PyVal
  timestamp : Int
deriving DecidableEq, Repr

/-- The SQLite store of `src/db.py`: `users` rows are (id, name); `chats`
and `channels` rows are (id, admin id, name); `chat_members` rows are
(chat id, user id).  `next_pmsg_id`/`next_cmsg_id`/`next_chmsg_id` model
the primary-key autoassignment returned through `cursor.lastrowid`, and
`now` the value `CURRENT_TIMESTAMP` stamps on an insert. -/
structure DB where
  users : List (Int × String)
  chats : List (Int × Option Int × String)
  channels : List (Int × Option Int × String)
  chat_members : List (Int × Int)
  personal_messages : List PMsgRow
  chat_messages : List CMsgRow
  channel_messages : List ChMsgRow
  next_pmsg_id : Int
  next_cmsg_id : Int
  next_chmsg_id : Int
  now : Int
deriving DecidableEq, Repr

/-- `Database.get_user_id`: first `users` row with the given name. -/
def DB.get_user_id (db : DB) (name : String) : Option Int :=
  (db.users.find? (fun r => r.2 == name)).map (fun r => r.1)

/-- `get_user_id(session.get('username'))`: the `WHERE name = NULL` query
of a missing session matches no row. -/
def getUserIdOpt (db : DB) (name? : Option String) : Option Int :=
  match name? with
  | Option.none => Option.none
  | Option.some n => db.get_user_id n

/-- `Database.is_user_chat_member`. -/
def DB.is_user_chat_member (db : DB) (chat_id user_id : Int) : Bool :=
  db.chat_members.any (fun m => m.1 == chat_id && m.2 == user_id)

/-- `Database.is_user_channel_admin`: fetch the channel's `admin_id` and
compare (a `NULL` admin compares unequal to every user id). -/
def DB.is_user_channel_admin (db : DB) (user_id channel_id : Int) : Bool :=
  match db.channels.find? (fun c => c.1 == channel_id) with
  | Option.none => false
  | Option.some c => c.2.1 == Option.some user_id

/-- `Database.create_personal_message`: insert and return `lastrowid`. -/
def DB.create_personal_message (db : DB) (sender_id : Option Int)
    (to_user_id : Int) (content : PyVal) : Int × DB :=
  (db.next_pmsg_id,
   { db with
      personal_messages :=
        db.personal_messages ++ [⟨db.next_pmsg_id, sender_id, to_user_id, content, db.now⟩],
      next_pmsg_id := db.next_pmsg_id + 1 })

/-- `Database.create_chat_message`. -/
def DB.create_chat_message (db : DB) (chat_id : Int) (sender_id : Option Int)
    (content : PyVal) : Int × DB :=
  (db.next_cmsg_id,
   { db with
      chat_messages :=
        db.chat_messages ++ [⟨db.next_cmsg_id, chat_id, sender_id, content, db.now⟩],
      next_cmsg_id := db.next_cmsg_id + 1 })

/-- `Database.create_channel_message`. -/
def DB.create_channel_message (db : DB) (channel_id : Int) (sender_id : Option Int)
    (content : PyVal) : Int × DB :=
  (db.next_chmsg_id,
   { db with
      channel_messages :=
        db.channel_messages ++ [⟨db.next_chmsg_id, channel_id, sender_id, content, db.now⟩],
      next_chmsg_id := db.next_chmsg_id + 1 })

/-- `SELECT timestamp FROM personal_messages WHERE id = ?` + `fetchone`:
`Option.none` models `row else None`. -/
def DB.get_personal_timestamp (db : DB) (mid : Int) : Option Int :=
  (db.personal_messages.find? (fun m => m.id == mid)).map (fun m => m.timestamp)

/-- `SELECT timestamp FROM chat_messages WHERE id = ?` + `fetchone`. -/
def DB.get_chat_timestamp (db : DB) (mid : Int) : Option Int :=
  (db.chat_messages.find? (fun m => m.id == mid)).map (fun m => m.timestamp)

/-- `SELECT timestamp FROM channel_messages WHERE id = ?` + `fetchone`. -/
def DB.get_channel_timestamp (db : DB) (mid : Int) : Option Int :=
  (db.channel_messages.find? (fun m => m.id == mid)).map (fun m => m.timestamp)

/-- `Database.delete_personal_message`: `DELETE ... WHERE id = ? AND
sender_id = ?`, returning `rowcount > 0`. -/
def DB.delete_personal_message (db : DB) (message_id owner_id : Int) : Bool × DB :=
  let keep := db.personal_messages.filter
    (fun m => !(m.id == message_id && m.sender_id == Option.some owner_id))
  (keep.length != db.personal_messages.length,
   { db with personal_messages := keep })

/-- `Database.delete_chat_message`. -/
def DB.delete_chat_message (db : DB) (message_id owner_id : Int) : Bool × DB :=
  let keep := db.chat_messages.filter
    (fun m => !(m.id == message_id && m.sender_id == Option.some owner_id))
  (keep.length != db.chat_messages.length,
   { db with chat_messages := keep })

/-- `Database.delete_channel_message`. -/
def DB.delete_channel_message (db : DB) (message_id owner_id : Int) : Bool × DB :=
  let keep := db.channel_messages.filter
    (fun m => !(m.id == message_id && m.sender_id == Option.some owner_id))
  (keep.length != db.channel_messages.length,
   { db with channel_messages := keep })

/-- The ephemeral in-process state: `ONLINE_USER_IDS` (a Python set,
modelled as a duplicate-free list) and the Socket.IO room memberships
(pairs of connection sid and room name). -/
structure SrvState where
  online_user_ids : List Int
  rooms : List (Int × String)
deriving DecidableEq, Repr

/-- Where an emission goes: `sio.emit(...)` with no room is a global
broadcast; `to=room` targets a room; a bare `emit(...)` inside a handler
answers the calling connection. -/
inductive Dest where
  | global : Dest
  | room : String → Dest
  | conn : Int → Dest
deriving DecidableEq, Repr

/-- The outbound payload shapes the handlers build. -/
inductive Payload where
  | presence (user_id : Int) (online : Bool) : Payload
  | system (message : String) : Payload
  | messageDeleted (id : Int) : Payload
  | msg (id : Int) (username : String) (text : PyVal) (ts : Option Int) : Payload
deriving DecidableEq, Repr

/-- One `emit`/`sio.emit` call: event name, payload, destination. -/
structure Emission where
  event : String
  payload : Payload
  dest : Dest
deriving DecidableEq, Repr

/-- How a handler finished: ran to the end, returned early (silent drop),
or raised an uncaught exception (also observable only as a drop). -/
inductive Outcome where
  | completed : Outcome
  | droppedClean : Outcome
  | raisedExn : Outcome
deriving DecidableEq, Repr

/-- Result of a message-path handler: outcome, the store after the event,
and the emissions made. -/
structure HResult where
  outcome : Outcome
  db : DB
  emits : List Emission
deriving DecidableEq, Repr

/-- `handle_connect` (src/main.py lines 31-41): reject when the session is
empty; otherwise resolve the username, and when it resolves to a truthy id
add it to `ONLINE_USER_IDS`, join the personal presence room and broadcast
presence-online; always answer the connection with a system notice. -/
def handle_connect (db : DB) (st : SrvState) (sid : Int) (sess : Option String) :
    Bool × SrvState × List Emission :=
  match sess with
  | Option.none => (false, st, [])
  | Option.some username =>
    if username = "" then (false, st, [])
    else
      match db.get_user_id username with
      | Option.some uid =>
        if uid ≠ 0 then
          (true,
           { online_user_ids := st.online_user_ids.insert uid,
             rooms := st.rooms.insert (sid, userRoom uid) },
           [⟨"presence", .presence uid true, .global⟩,
            ⟨"system", .system (username ++ " connected"), .conn sid⟩])
        else (true, st, [⟨"system", .system (username ++ " connected"), .conn sid⟩])
      | Option.none => (true, st, [⟨"system", .system (username ++ " connected"), .conn sid⟩])

/-- `handle_disconnect` (src/main.py lines 43-51): if the session resolves
to a truthy id currently in `ONLINE_USER_IDS`, discard it and broadcast
presence-offline; the handler never consults which connection closed nor
whether the user has another live connection. -/
def handle_disconnect (db : DB) (st : SrvState) (sess : Option String) :
    SrvState × List Emission :=
  match sess with
  | Option.none => (st, [])
  | Option.some username =>
    if username = "" then (st, [])
    else
      match db.get_user_id username with
      | Option.some uid =>
        if uid ≠ 0 ∧ uid ∈ st.online_user_ids then
          ({ st with online_user_ids := st.online_user_ids.erase uid },
           [⟨"presence", .presence uid false, .global⟩])
        else (st, [])
      | Option.none => (st, [])

/-- `personal_message` (src/main.py lines 143-168): after the truthiness
checks, split the room on `':'` (a shape other than two parts raises the
uncaught unpacking `ValueError`), convert both parts (failure is caught
and returns), compute the other participant, insert, read the timestamp
back, and emit the payload to the client-supplied room string. -/
def personal_message (db : DB) (sess : Option String) (textv roomv : PyVal) : HResult :=
  let self_id := getUserIdOpt db sess
  if pyFalsy textv || falsyOptStr sess || pyFalsy roomv then ⟨.droppedClean, db, []⟩
  else
    match roomv with
    | .str room =>
      match parsePairRoom room with
      | .ok user1_id user2_id =>
        let other_user_id := if self_id = Option.some user1_id then user2_id else user1_id
        let res := db.create_personal_message self_id other_user_id textv
        let ts := res.2.get_personal_timestamp res.1
        ⟨.completed, res.2,
         [⟨"personal_message", .msg res.1 (sess.getD "") textv ts, .room room⟩]⟩
      | .badInt => ⟨.droppedClean, db, []⟩
      | .badShape => ⟨.raisedExn, db, []⟩
    | _ => ⟨.raisedExn, db, []⟩

/-- `chat_message` (src/main.py lines 170-189): drop unless text, chat id
and resolved user id are truthy, the chat id parses, and the sender is a
chat member; then insert, read the timestamp back and emit to
`chat:<id>`. -/
def chat_message (db : DB) (sess : Option String) (textv chatv : PyVal) : HResult :=
  let user_id := getUserIdOpt db sess
  if pyFalsy textv || pyFalsy chatv || falsyOptInt user_id then ⟨.droppedClean, db, []⟩
  else
    match pyInt? chatv with
    | Option.none => ⟨.droppedClean, db, []⟩
    | Option.some chat_id =>
      match user_id with
      | Option.some uid =>
        if db.is_user_chat_member chat_id uid then
          let res := db.create_chat_message chat_id (Option.some uid) textv
          let ts := res.2.get_chat_timestamp res.1
          ⟨.completed, res.2,
           [⟨"chat_message", .msg res.1 (sess.getD "") textv ts,
             .room ("chat:" ++ toString chat_id)⟩]⟩
        else ⟨.droppedClean, db, []⟩
      | Option.none => ⟨.droppedClean, db, []⟩

/-- `channel_message` (src/main.py lines 191-211): as `chat_message` but
the sender must be the channel's admin and the room is `channel:<id>`. -/
def channel_message (db : DB) (sess : Option String) (textv chanv : PyVal) : HResult :=
  let user_id := getUserIdOpt db sess
  if pyFalsy textv || pyFalsy chanv || falsyOptInt user_id then ⟨.droppedClean, db, []⟩
  else
    match pyInt? chanv with
    | Option.none => ⟨.droppedClean, db, []⟩
    | Option.some channel_id =>
      match user_id with
      | Option.some uid =>
        if db.is_user_channel_admin uid channel_id then
          let res := db.create_channel_message channel_id (Option.some uid) textv
          let ts := res.2.get_channel_timestamp res.1
          ⟨.completed, res.2,
           [⟨"channel_message", .msg res.1 (sess.getD "") textv ts,
             .room ("channel:" ++ toString channel_id)⟩]⟩
        else ⟨.droppedClean, db, []⟩
      | Option.none => ⟨.droppedClean, db, []⟩

/-- `delete_message` (src/main.py lines 90-141): resolve the requester,
parse `data.get('id') or data.get('message_id')`, then per scope: personal
deletes unconditionally of the peer id (an unparseable peer id only
degrades the notice to a global broadcast), chat and channel parse their
id first and return on failure; a successful store deletion broadcasts
`message_deleted` to the resolved room, a failed one emits nothing. -/
def delete_message (db : DB) (sess : Option String)
    (scopev idv midv peerv chatv chanv : PyVal) : HResult :=
  if falsyOptStr sess then ⟨.droppedClean, db, []⟩
  else
    match getUserIdOpt db sess with
    | Option.none => ⟨.droppedClean, db, []⟩
    | Option.some user_id =>
      if user_id = 0 then ⟨.droppedClean, db, []⟩
      else
        match pyInt? (pyOr idv midv) with
        | Option.none => ⟨.droppedClean, db, []⟩
        | Option.some msg_id =>
          if scopev = .str "personal" then
            let peer? := pyInt? peerv
            let res := db.delete_personal_message msg_id user_id
            if res.1 then
              match peer? with
              | Option.some p =>
                if p ≠ 0 then
                  ⟨.completed, res.2,
                   [⟨"message_deleted", .messageDeleted msg_id,
                     .room (canonicalPair user_id p)⟩]⟩
                else
                  ⟨.completed, res.2,
                   [⟨"message_deleted", .messageDeleted msg_id, .global⟩]⟩
              | Option.none =>
                ⟨.completed, res.2,
                 [⟨"message_deleted", .messageDeleted msg_id, .global⟩]⟩
            else ⟨.completed, res.2, []⟩
          else if scopev = .str "chat" then
            match pyInt? chatv with
            | Option.none => ⟨.droppedClean, db, []⟩
            | Option.some chat_id =>
              let res := db.delete_chat_message msg_id user_id
              if res.1 then
                ⟨.completed, res.2,
                 [⟨"message_deleted", .messageDeleted msg_id,
                   .room ("chat:" ++ toString chat_id)⟩]⟩
              else ⟨.completed, res.2, []⟩
          else if scopev = .str "channel" then
            match pyInt? chanv with
            | Option.none => ⟨.droppedClean, db, []⟩
            | Option.some channel_id =>
              let res := db.delete_channel_message msg_id user_id
              if res.1 then
                ⟨.completed, res.2,
                 [⟨"message_deleted", .messageDeleted msg_id,
                   .room ("channel:" ++ toString channel_id)⟩]⟩
              else ⟨.completed, res.2, []⟩
          else ⟨.completed, db, []⟩

/-- A small concrete store used by the witnesses and counterexamples:
alice (1) and bob (2) share chat 7 (admin alice); alice administers
channel 9; carol (3) is in neither; one message of each scope, all sent by
alice. -/
def dbW : DB :=
  { users := [(1, "alice"), (2, "bob"), (3, "carol")],
    chats := [(7, Option.some 1, "general")],
    channels := [(9, Option.some 1, "news")],
    chat_members := [(7, 1), (7, 2)],
    personal_messages := [⟨5, Option.some 1, 2, .str "m", 40⟩],
    chat_messages := [⟨6, 7, Option.some 1, .str "g", 41⟩],
    channel_messages := [⟨8, 9, Option.some 1, .str "n", 42⟩],
    next_pmsg_id := 6,
    next_cmsg_id := 7,
    next_chmsg_id := 9,
    now := 100 }

theorem length_filter_not_bne_true_iff {α : Type} (p : α → Bool) (l : List α) :
    ((((l.filter fun a => !(p a)).length : Nat) != l.length) = true) ↔ ∃ a ∈ l, p a = true := by
  induction l with
  | nil => simp
  | cons x xs ih =>
    by_cases hp : p x = true
    · constructor
      · intro _
        exact ⟨x, List.mem_cons_self x xs, hp⟩
      · intro _
        have hle : ((xs.filter fun a => !(p a)).length : Nat) ≤ xs.length :=
          List.length_filter_le _ _
        simp only [List.filter_cons, hp, Bool.not_true, if_neg Bool.false_ne_true,
          List.length_cons, bne_iff_ne, ne_eq]
        omega
    · have hpx : p x = false := by simpa using hp
      simp only [List.filter_cons, hpx, Bool.not_false, if_pos trivial, List.length_cons,
        List.mem_cons]
      constructor
      · intro hb
        have hxs : (((xs.filter fun a => !(p a)).length : Nat) != xs.length) = true := by
          simp only [bne_iff_ne, ne_eq] at hb ⊢
          omega
        obtain ⟨a, ha, hpa⟩ := ih.mp hxs
        exact ⟨a, Or.inr ha, hpa⟩
      · rintro ⟨a, (rfl | ha), hpa⟩
        · exact absurd hpa hp
        · have hxs := ih.mpr ⟨a, ha, hpa⟩
          simp only [bne_iff_ne, ne_eq] at hxs ⊢
          omega

theorem filter_not_eq_self_of_bne_false {α : Type} (p : α → Bool) (l : List α)
    (h : ((((l.filter fun a => !(p a)).length : Nat) != l.length) = false)) :
    l.filter (fun a => !(p a)) = l := by
  have hlen : ((l.filter fun a => !(p a)).length : Nat) = l.length := by
    simpa [bne_iff_ne] using h
  exact (List.filter_sublist _).eq_of_length hlen

theorem mem_filter_not_iff {α : Type} (p : α → Bool) (l : List α) (a : α) :
    a ∈ l.filter (fun x => !(p x)) ↔ a ∈ l ∧ ¬(p a = true) := by
  simp [List.mem_filter]

theorem find_append_singleton {α : Type} (l : List α) (r : α) (p : α → Bool)
    (h : ∀ a ∈ l, p a = false) (hr : p r = true) :
    (l ++ [r]).find? p = Option.some r := by
  induction l with
  | nil => simp [List.find?, hr]
  | cons x xs ih =>
    have hx : p x = false := h x (List.mem_cons_self x xs)
    simp only [List.cons_append, List.find?, hx]
    exact ih (fun a ha => h a (List.mem_cons_of_mem x ha))

/-- Claim C8: for all user ids u ≠ v the canonical-pair room derived from
(u, v) equals the one derived from (v, u): the derivation sorts the two
ids, so both participants resolve the same room. -/
theorem canonical_pair_symm (u v : Int) (h : u ≠ v) :
    canonicalPair u v = canonicalPair v u := by
  unfold canonicalPair
  rw [min_comm, max_comm]

theorem canonical_pair_symm_witness :
    (1 : Int) ≠ 2 ∧ canonicalPair 1 2 = canonicalPair 2 1 :=
  ⟨by decide, canonical_pair_symm 1 2 (by decide)⟩

/-- Claim C10: a connect event with a valid session whose username does not
resolve to an existing user id is accepted and answered with the system
connected notice, while the Presence Registry and room memberships are
unchanged and no presence event is broadcast. -/
theorem connect_unresolved_user (db : DB) (st : SrvState) (sid : Int) (u : String)
    (hne : u ≠ "") (h : db.get_user_id u = Option.none) :
    handle_connect db st sid (Option.some u)
      = (true, st, [⟨"system", .system (u ++ " connected"), .conn sid⟩]) := by
  simp [handle_connect, hne, h]

theorem connect_unresolved_user_witness :
    handle_connect dbW ⟨[], []⟩ 10 (Option.some "zed")
      = (true, ⟨[], []⟩, [⟨"system", Payload.system ("zed" ++ " connected"), Dest.conn 10⟩]) :=
  connect_unresolved_user dbW ⟨[], []⟩ 10 "zed" (by decide) (by decide)

theorem delete_personal_unchanged_of_false (db : DB) (mid uid : Int)
    (h : (db.delete_personal_message mid uid).1 = false) :
    (db.delete_personal_message mid uid).2 = db := by
  have heq := filter_not_eq_self_of_bne_false
    (fun m : PMsgRow => m.id == mid && m.sender_id == Option.some uid)
    db.personal_messages (by simpa [DB.delete_personal_message] using h)
  simp only [DB.delete_personal_message]
  rw [heq]

theorem delete_chat_unchanged_of_false (db : DB) (mid uid : Int)
    (h : (db.delete_chat_message mid uid).1 = false) :
    (db.delete_chat_message mid uid).2 = db := by
  have heq := filter_not_eq_self_of_bne_false
    (fun m : CMsgRow => m.id == mid && m.sender_id == Option.some uid)
    db.chat_messages (by simpa [DB.delete_chat_message] using h)
  simp only [DB.delete_chat_message]
  rw [heq]

theorem delete_channel_unchanged_of_false (db : DB) (mid uid : Int)
    (h : (db.delete_channel_message mid uid).1 = false) :
    (db.delete_channel_message mid uid).2 = db := by
  have heq := filter_not_eq_self_of_bne_false
    (fun m : ChMsgRow => m.id == mid && m.sender_id == Option.some uid)
    db.channel_messages (by simpa [DB.delete_channel_message] using h)
  simp only [DB.delete_channel_message]
  rw [heq]

/-- Claim C5: each of delete_personal_message, delete_chat_message and
delete_channel_message returns true iff a row with that id and sender
equal to the owner existed; the rows of the new table are exactly the old
rows that do not match (so a matching row is removed and another sender's
row is never deleted); and a false return leaves the store unchanged. -/
theorem delete_owner_spec (db : DB) (mid uid : Int) :
    (((db.delete_personal_message mid uid).1 = true)
        ↔ ∃ m ∈ db.personal_messages, m.id = mid ∧ m.sender_id = Option.some uid)
    ∧ (∀ m, m ∈ (db.delete_personal_message mid uid).2.personal_messages
        ↔ m ∈ db.personal_messages ∧ ¬(m.id = mid ∧ m.sender_id = Option.some uid))
    ∧ ((db.delete_personal_message mid uid).1 = false
        → (db.delete_personal_message mid uid).2 = db)
    ∧ (((db.delete_chat_message mid uid).1 = true)
        ↔ ∃ m ∈ db.chat_messages, m.id = mid ∧ m.sender_id = Option.some uid)
    ∧ (∀ m, m ∈ (db.delete_chat_message mid uid).2.chat_messages
        ↔ m ∈ db.chat_messages ∧ ¬(m.id = mid ∧ m.sender_id = Option.some uid))
    ∧ ((db.delete_chat_message mid uid).1 = false
        → (db.delete_chat_message mid uid).2 = db)
    ∧ (((db.delete_channel_message mid uid).1 = true)
        ↔ ∃ m ∈ db.channel_messages, m.id = mid ∧ m.sender_id = Option.some uid)
    ∧ (∀ m, m ∈ (db.delete_channel_message mid uid).2.channel_messages
        ↔ m ∈ db.channel_messages ∧ ¬(m.id = mid ∧ m.sender_id = Option.some uid))
    ∧ ((db.delete_channel_message mid uid).1 = false
        → (db.delete_channel_message mid uid).2 = db) := by
  refine ⟨?_, ?_, delete_personal_unchanged_of_false db mid uid,
          ?_, ?_, delete_chat_unchanged_of_false db mid uid,
          ?_, ?_, delete_channel_unchanged_of_false db mid uid⟩
  · have hi := length_filter_not_bne_true_iff
      (fun m : PMsgRow => m.id == mid && m.sender_id == Option.some uid) db.personal_messages
    simpa [DB.delete_personal_message] using hi
  · intro m
    have hm := mem_filter_not_iff
      (fun m : PMsgRow => m.id == mid && m.sender_id == Option.some uid)
      db.personal_messages m
    simpa [DB.delete_personal_message] using hm
  · have hi := length_filter_not_bne_true_iff
      (fun m : CMsgRow => m.id == mid && m.sender_id == Option.some uid) db.chat_messages
    simpa [DB.delete_chat_message] using hi
  · intro m
    have hm := mem_filter_not_iff
      (fun m : CMsgRow => m.id == mid && m.sender_id == Option.some uid)
      db.chat_messages m
    simpa [DB.delete_chat_message] using hm
  · have hi := length_filter_not_bne_true_iff
      (fun m : ChMsgRow => m.id == mid && m.sender_id == Option.some uid) db.channel_messages
    simpa [DB.delete_channel_message] using hi
  · intro m
    have hm := mem_filter_not_iff
      (fun m : ChMsgRow => m.id == mid && m.sender_id == Option.some uid)
      db.channel_messages m
    simpa [DB.delete_channel_message] using hm

theorem delete_owner_spec_witness :
    (dbW.delete_personal_message 5 1).1 = true :=
  (delete_owner_spec dbW 5 1).1.mpr
    ⟨⟨5, Option.some 1, 2, PyVal.str "m", 40⟩, by decide, rfl, rfl⟩

/-- Counterexample to claim C1 as stated: alice (id 1) opens two
connections (sids 10 and 20); the registry holds her once, but the
disconnect handler run while the second connection is still live empties
the registry and broadcasts presence-offline — the registry does not stay
unchanged and does not wait for both connections to close. -/
theorem presence_two_conn_disconnect_cx :
    ((handle_connect dbW (handle_connect dbW ⟨[], []⟩ 10 (Option.some "alice")).2.1 20
        (Option.some "alice")).2.1.online_user_ids = [1])
    ∧ ((handle_disconnect dbW
          (handle_connect dbW (handle_connect dbW ⟨[], []⟩ 10 (Option.some "alice")).2.1 20
            (Option.some "alice")).2.1 (Option.some "alice")).1.online_user_ids = [])
    ∧ ((handle_disconnect dbW
          (handle_connect dbW (handle_connect dbW ⟨[], []⟩ 10 (Option.some "alice")).2.1 20
            (Option.some "alice")).2.1 (Option.some "alice")).2
        = [⟨"presence", Payload.presence 1 false, Dest.global⟩]) := by decide

/-- Claim C1 (amended): the Presence Registry has set semantics, so a user
with two simultaneous live connections is reported online exactly once;
but the registry keeps no per-user connection count, so the first
disconnect of either connection removes the user and broadcasts
presence-offline even though the other connection is still live. -/
theorem presence_set_first_disconnect (db : DB) (st : SrvState) (u : String) (uid : Int)
    (s1 s2 : Int) (hu : db.get_user_id u = Option.some uid) (hune : u ≠ "") (huid : uid ≠ 0)
    (hnot : uid ∉ st.online_user_ids) :
    ((handle_connect db (handle_connect db st s1 (Option.some u)).2.1 s2
        (Option.some u)).2.1.online_user_ids.count uid = 1)
    ∧ (uid ∉ (handle_disconnect db
          (handle_connect db (handle_connect db st s1 (Option.some u)).2.1 s2
            (Option.some u)).2.1 (Option.some u)).1.online_user_ids)
    ∧ ((handle_disconnect db
          (handle_connect db (handle_connect db st s1 (Option.some u)).2.1 s2
            (Option.some u)).2.1 (Option.some u)).2
        = [⟨"presence", .presence uid false, .global⟩]) := by
  have h1 : (handle_connect db st s1 (Option.some u)).2.1.online_user_ids
      = uid :: st.online_user_ids := by
    simp [handle_connect, hu, hune, huid, List.insert_of_not_mem hnot]
  have h2 : (handle_connect db (handle_connect db st s1 (Option.some u)).2.1 s2
      (Option.some u)).2.1.online_user_ids = uid :: st.online_user_ids := by
    simp [handle_connect, hu, hune, huid, h1, List.insert_of_not_mem hnot,
      List.insert_of_mem (List.mem_cons_self uid st.online_user_ids)]
  refine ⟨?_, ?_, ?_⟩
  · rw [h2, List.count_cons_self, List.count_eq_zero.mpr hnot]
  · simp [handle_disconnect, hu, hune, huid, h2, hnot]
  · simp [handle_disconnect, hu, hune, huid, h2]

theorem presence_set_first_disconnect_witness :
    ((handle_connect dbW (handle_connect dbW ⟨[], []⟩ 10 (Option.some "alice")).2.1 20
        (Option.some "alice")).2.1.online_user_ids.count 1 = 1)
    ∧ ((1 : Int) ∉ (handle_disconnect dbW
          (handle_connect dbW (handle_connect dbW ⟨[], []⟩ 10 (Option.some "alice")).2.1 20
            (Option.some "alice")).2.1 (Option.some "alice")).1.online_user_ids)
    ∧ ((handle_disconnect dbW
          (handle_connect dbW (handle_connect dbW ⟨[], []⟩ 10 (Option.some "alice")).2.1 20
            (Option.some "alice")).2.1 (Option.some "alice")).2
        = [⟨"presence", Payload.presence 1 false, Dest.global⟩]) :=
  presence_set_first_disconnect dbW ⟨[], []⟩ "alice" 1 10 20
    (by decide) (by decide) (by decide) (by decide)

theorem personal_message_success (db : DB) (u room : String) (textv : PyVal) (u1 u2 : Int)
    (hune : u ≠ "") (ht : pyFalsy textv = false) (hrne : room ≠ "")
    (hr : parsePairRoom room = .ok u1 u2)
    (hfresh : ∀ m ∈ db.personal_messages, m.id ≠ db.next_pmsg_id) :
    personal_message db (Option.some u) textv (.str room)
      = ⟨.completed,
         { db with
            personal_messages := db.personal_messages ++
              [⟨db.next_pmsg_id, db.get_user_id u,
                (if db.get_user_id u = Option.some u1 then u2 else u1), textv, db.now⟩],
            next_pmsg_id := db.next_pmsg_id + 1 },
         [⟨"personal_message",
           .msg db.next_pmsg_id u textv (Option.some db.now), .room room⟩]⟩ := by
  have hbu : (u == "") = false := beq_eq_false_iff_ne.mpr hune
  have hbr : (room == "") = false := beq_eq_false_iff_ne.mpr hrne
  have hfind := find_append_singleton db.personal_messages
      (⟨db.next_pmsg_id, db.get_user_id u,
        (if db.get_user_id u = Option.some u1 then u2 else u1), textv, db.now⟩ : PMsgRow)
      (fun m => m.id == db.next_pmsg_id)
      (fun a ha => by simpa using hfresh a ha)
      (by simp)
  simp only [personal_message, getUserIdOpt]
  rw [ht]
  simp [falsyOptStr, pyFalsy, hbu, hbr, hr,
    DB.create_personal_message, DB.get_personal_timestamp, hfind]

/-- Counterexample to claim C2 as stated: carol (id 3) is neither id of
the pair room "1:2", yet her personal_message is persisted (sender 3,
target 1) and broadcast — the handler never checks the sender against the
pair. -/
theorem personal_message_foreign_sender_cx :
    (personal_message dbW (Option.some "carol") (.str "hi") (.str "1:2")).db.personal_messages
      = [⟨5, Option.some 1, 2, .str "m", 40⟩, ⟨6, Option.some 3, 1, .str "hi", 100⟩]
    ∧ (personal_message dbW (Option.some "carol") (.str "hi") (.str "1:2")).emits
      = [⟨"personal_message", Payload.msg 6 "carol" (.str "hi") (Option.some 100),
          Dest.room "1:2"⟩] := by decide

/-- Claim C2 (amended): a personal_message whose room parses as a pair
(u1, u2) but whose authenticated sender is neither id is NOT dropped: the
handler performs no sender-membership check, persists the message with
sender = self and target = u1 (the first id of the room string), and
broadcasts it to the client-supplied room. -/
theorem personal_message_foreign_sender (db : DB) (u room : String) (textv : PyVal)
    (uid u1 u2 : Int) (hu : db.get_user_id u = Option.some uid) (hune : u ≠ "")
    (ht : pyFalsy textv = false) (hrne : room ≠ "")
    (hr : parsePairRoom room = .ok u1 u2) (hn1 : uid ≠ u1) (hn2 : uid ≠ u2)
    (hfresh : ∀ m ∈ db.personal_messages, m.id ≠ db.next_pmsg_id) :
    (personal_message db (Option.some u) textv (.str room)).outcome = .completed
    ∧ (personal_message db (Option.some u) textv (.str room)).db.personal_messages
        = db.personal_messages ++ [⟨db.next_pmsg_id, Option.some uid, u1, textv, db.now⟩]
    ∧ (personal_message db (Option.some u) textv (.str room)).emits
        = [⟨"personal_message", .msg db.next_pmsg_id u textv (Option.some db.now),
            .room room⟩] := by
  rw [personal_message_success db u room textv u1 u2 hune ht hrne hr hfresh]
  simp [hu, hn1]

theorem personal_message_foreign_sender_witness :
    (personal_message dbW (Option.some "carol") (.str "hi") (.str "1:2")).outcome
        = Outcome.completed
    ∧ (personal_message dbW (Option.some "carol") (.str "hi") (.str "1:2")).db.personal_messages
        = dbW.personal_messages ++ [⟨6, Option.some 3, 1, .str "hi", 100⟩]
    ∧ (personal_message dbW (Option.some "carol") (.str "hi") (.str "1:2")).emits
        = [⟨"personal_message", Payload.msg 6 "carol" (.str "hi") (Option.some 100),
            Dest.room "1:2"⟩] :=
  personal_message_foreign_sender dbW "carol" "1:2" (.str "hi") 3 1 2
    (by decide) (by decide) (by decide) (by decide) (by decide) (by decide) (by decide)
    (by decide)

/-- Counterexample to claim C3 as stated: alice (id 1) sends an accepted
personal_message with room "2:1"; the broadcast goes to the room string
"2:1" exactly as supplied, which is not the canonical pair room of ids 2
and 1. -/
theorem personal_message_noncanonical_room_cx :
    (personal_message dbW (Option.some "alice") (.str "hi") (.str "2:1")).outcome
        = Outcome.completed
    ∧ (personal_message dbW (Option.some "alice") (.str "hi") (.str "2:1")).emits
        = [⟨"personal_message", Payload.msg 6 "alice" (.str "hi") (Option.some 100),
            Dest.room "2:1"⟩]
    ∧ ("2:1" : String) ≠ canonicalPair 2 1 := by decide

/-- Claim C3 (amended): an accepted personal_message is broadcast to the
client-supplied room string exactly as supplied (no canonicalization on
the message path — it coincides with the canonical pair room only when the
client already sent it sorted), and the payload does carry the
store-assigned message id and timestamp. -/
theorem personal_message_broadcast_client_room (db : DB) (u room : String) (textv : PyVal)
    (uid u1 u2 : Int) (hu : db.get_user_id u = Option.some uid) (hune : u ≠ "")
    (ht : pyFalsy textv = false) (hrne : room ≠ "")
    (hr : parsePairRoom room = .ok u1 u2) (hin : uid = u1 ∨ uid = u2)
    (hfresh : ∀ m ∈ db.personal_messages, m.id ≠ db.next_pmsg_id) :
    (personal_message db (Option.some u) textv (.str room)).outcome = .completed
    ∧ (personal_message db (Option.some u) textv (.str room)).emits
        = [⟨"personal_message", .msg db.next_pmsg_id u textv (Option.some db.now),
            .room room⟩] := by
  rw [personal_message_success db u room textv u1 u2 hune ht hrne hr hfresh]
  exact ⟨rfl, rfl⟩

theorem personal_message_broadcast_client_room_witness :
    (personal_message dbW (Option.some "alice") (.str "hi") (.str "2:1")).outcome
        = Outcome.completed
    ∧ (personal_message dbW (Option.some "alice") (.str "hi") (.str "2:1")).emits
        = [⟨"personal_message", Payload.msg 6 "alice" (.str "hi") (Option.some 100),
            Dest.room "2:1"⟩] :=
  personal_message_broadcast_client_room dbW "alice" "2:1" (.str "hi") 1 2 1
    (by decide) (by decide) (by decide) (by decide) (by decide) (Or.inr rfl) (by decide)

/-- Claim C4: a chat_message from a sender who is not a member of the
named chat, and a channel_message from a sender who is not the named
channel's admin, are dropped: the store is unchanged and nothing is
broadcast. -/
theorem unauthorized_post_dropped (db : DB) (u : String) (uid : Int)
    (textv chatv chanv : PyVal) (c ch : Int)
    (hu : db.get_user_id u = Option.some uid)
    (hc : pyInt? chatv = Option.some c)
    (hch : pyInt? chanv = Option.some ch)
    (hmem : db.is_user_chat_member c uid = false)
    (hadm : db.is_user_channel_admin uid ch = false) :
    ((chat_message db (Option.some u) textv chatv).db = db
      ∧ (chat_message db (Option.some u) textv chatv).emits = [])
    ∧ ((channel_message db (Option.some u) textv chanv).db = db
      ∧ (channel_message db (Option.some u) textv chanv).emits = []) := by
  constructor
  · cases hf : (pyFalsy textv || pyFalsy chatv || falsyOptInt (Option.some uid)) with
    | true => simp [chat_message, getUserIdOpt, hu, hf]
    | false => simp [chat_message, getUserIdOpt, hu, hf, hc, hmem]
  · cases hf : (pyFalsy textv || pyFalsy chanv || falsyOptInt (Option.some uid)) with
    | true => simp [channel_message, getUserIdOpt, hu, hf]
    | false => simp [channel_message, getUserIdOpt, hu, hf, hch, hadm]

theorem unauthorized_post_dropped_witness :
    ((chat_message dbW (Option.some "carol") (.str "x") (.str "7")).db = dbW
      ∧ (chat_message dbW (Option.some "carol") (.str "x") (.str "7")).emits = [])
    ∧ ((channel_message dbW (Option.some "carol") (.str "x") (.str "9")).db = dbW
      ∧ (channel_message dbW (Option.some "carol") (.str "x") (.str "9")).emits = []) :=
  unauthorized_post_dropped dbW "carol" 3 (.str "x") (.str "7") (.str "9") 7 9
    (by decide) (by decide) (by decide) (by decide) (by decide)

/-- Counterexample to claim C6 as stated: the peer id is an externally
supplied identifier, yet a personal-scope delete_message with the
unparseable peer id "xyz" is not dropped — the owner's message row 5 is
still deleted and a message_deleted notice is broadcast globally. -/
theorem peer_parse_failure_not_dropped_cx :
    (delete_message dbW (Option.some "alice") (.str "personal") (.str "5") .none
        (.str "xyz") .none .none).db.personal_messages = []
    ∧ (delete_message dbW (Option.some "alice") (.str "personal") (.str "5") .none
        (.str "xyz") .none .none).emits
      = [⟨"message_deleted", Payload.messageDeleted 5, Dest.global⟩] := by decide

/-- Claim C6 (amended): a parse failure of the personal_message room, of
the delete_message message id, or of the chat or channel id of a chat- or
channel-scope delete_message drops the event with nothing persisted and
nothing broadcast; the peer id is the exception: its parse failure does
not drop a personal-scope delete — the deletion still runs and the notice
is broadcast globally. -/
theorem parse_failure_drops (db : DB) (sess : Option String) (textv : PyVal)
    (room : String) (scopev idv midv peerv chatv chanv : PyVal) :
    ((parsePairRoom room = PairParse.badInt ∨ parsePairRoom room = PairParse.badShape)
        → (personal_message db sess textv (.str room)).db = db
          ∧ (personal_message db sess textv (.str room)).emits = [])
    ∧ ((pyInt? (pyOr idv midv) = Option.none)
        → (delete_message db sess scopev idv midv peerv chatv chanv).db = db
          ∧ (delete_message db sess scopev idv midv peerv chatv chanv).emits = [])
    ∧ ((pyInt? chatv = Option.none)
        → (delete_message db sess (.str "chat") idv midv peerv chatv chanv).db = db
          ∧ (delete_message db sess (.str "chat") idv midv peerv chatv chanv).emits = [])
    ∧ ((pyInt? chanv = Option.none)
        → (delete_message db sess (.str "channel") idv midv peerv chatv chanv).db = db
          ∧ (delete_message db sess (.str "channel") idv midv peerv chatv chanv).emits = []) := by
  refine ⟨?_, ?_, ?_, ?_⟩
  · intro hfail
    cases hpf : (pyFalsy textv || falsyOptStr sess || pyFalsy (.str room)) with
    | true => simp [personal_message, hpf]
    | false =>
      rcases hfail with hpp | hpp <;> simp [personal_message, hpf, hpp]
  · intro hid
    cases hs : falsyOptStr sess with
    | true => simp [delete_message, hs]
    | false =>
      cases hres : getUserIdOpt db sess with
      | none => simp [delete_message, hs, hres]
      | some uid =>
        by_cases hz : uid = 0
        · simp [delete_message, hs, hres, hz]
        · simp [delete_message, hs, hres, hz, hid]
  · intro hcn
    cases hs : falsyOptStr sess with
    | true => simp [delete_message, hs]
    | false =>
      cases hres : getUserIdOpt db sess with
      | none => simp [delete_message, hs, hres]
      | some uid =>
        by_cases hz : uid = 0
        · simp [delete_message, hs, hres, hz]
        · cases hid2 : pyInt? (pyOr idv midv) with
          | none => simp [delete_message, hs, hres, hz, hid2]
          | some mid => simp [delete_message, hs, hres, hz, hid2, hcn]
  · intro hcn
    cases hs : falsyOptStr sess with
    | true => simp [delete_message, hs]
    | false =>
      cases hres : getUserIdOpt db sess with
      | none => simp [delete_message, hs, hres]
      | some uid =>
        by_cases hz : uid = 0
        · simp [delete_message, hs, hres, hz]
        · cases hid2 : pyInt? (pyOr idv midv) with
          | none => simp [delete_message, hs, hres, hz, hid2]
          | some mid => simp [delete_message, hs, hres, hz, hid2, hcn]

theorem parse_failure_drops_witness :
    ((personal_message dbW (Option.some "alice") (.str "hi") (.str "banana")).db = dbW
      ∧ (personal_message dbW (Option.some "alice") (.str "hi") (.str "banana")).emits = [])
    ∧ ((delete_message dbW (Option.some "alice") (.str "personal") (.str "zz") .none .none
          (.str "qq") (.str "rr")).db = dbW
      ∧ (delete_message dbW (Option.some "alice") (.str "personal") (.str "zz") .none .none
          (.str "qq") (.str "rr")).emits = [])
    ∧ ((delete_message dbW (Option.some "alice") (.str "chat") (.str "zz") .none .none
          (.str "qq") (.str "rr")).db = dbW
      ∧ (delete_message dbW (Option.some "alice") (.str "chat") (.str "zz") .none .none
          (.str "qq") (.str "rr")).emits = [])
    ∧ ((delete_message dbW (Option.some "alice") (.str "channel") (.str "zz") .none .none
          (.str "qq") (.str "rr")).db = dbW
      ∧ (delete_message dbW (Option.some "alice") (.str "channel") (.str "zz") .none .none
          (.str "qq") (.str "rr")).emits = []) :=
  ⟨(parse_failure_drops dbW (Option.some "alice") (.str "hi") "banana" (.str "personal")
      (.str "zz") .none .none (.str "qq") (.str "rr")).1 (by decide),
   (parse_failure_drops dbW (Option.some "alice") (.str "hi") "banana" (.str "personal")
      (.str "zz") .none .none (.str "qq") (.str "rr")).2.1 (by decide),
   (parse_failure_drops dbW (Option.some "alice") (.str "hi") "banana" (.str "personal")
      (.str "zz") .none .none (.str "qq") (.str "rr")).2.2.1 (by decide),
   (parse_failure_drops dbW (Option.some "alice") (.str "hi") "banana" (.str "personal")
      (.str "zz") .none .none (.str "qq") (.str "rr")).2.2.2 (by decide)⟩

/-- Claim C7: a delete_message whose store deletion fails broadcasts no
notice (and leaves the store unchanged, nothing surfaced to the sender);
a successful one broadcasts message_deleted with the id to the resolved
room: the canonical pair room for personal scope (with a usable peer id),
chat:<id> for chat scope and channel:<id> for channel scope. -/
theorem delete_notice_routing (db : DB) (u : String) (uid : Int)
    (idv midv peerv chatv chanv : PyVal) (msg_id p c ch : Int)
    (hune : u ≠ "") (hu : db.get_user_id u = Option.some uid) (hz : uid ≠ 0)
    (hid : pyInt? (pyOr idv midv) = Option.some msg_id)
    (hp : pyInt? peerv = Option.some p) (hpz : p ≠ 0)
    (hc : pyInt? chatv = Option.some c)
    (hch : pyInt? chanv = Option.some ch) :
    (((db.delete_personal_message msg_id uid).1 = false
        → (delete_message db (Option.some u) (.str "personal") idv midv peerv chatv chanv).emits
            = []
          ∧ (delete_message db (Option.some u) (.str "personal") idv midv peerv chatv chanv).db
            = db)
    ∧ ((db.delete_personal_message msg_id uid).1 = true
        → (delete_message db (Option.some u) (.str "personal") idv midv peerv chatv chanv).emits
            = [⟨"message_deleted", .messageDeleted msg_id, .room (canonicalPair uid p)⟩]))
    ∧ (((db.delete_chat_message msg_id uid).1 = false
        → (delete_message db (Option.some u) (.str "chat") idv midv peerv chatv chanv).emits
            = []
          ∧ (delete_message db (Option.some u) (.str "chat") idv midv peerv chatv chanv).db
            = db)
    ∧ ((db.delete_chat_message msg_id uid).1 = true
        → (delete_message db (Option.some u) (.str "chat") idv midv peerv chatv chanv).emits
            = [⟨"message_deleted", .messageDeleted msg_id,
                .room ("chat:" ++ toString c)⟩]))
    ∧ (((db.delete_channel_message msg_id uid).1 = false
        → (delete_message db (Option.some u) (.str "channel") idv midv peerv chatv chanv).emits
            = []
          ∧ (delete_message db (Option.some u) (.str "channel") idv midv peerv chatv chanv).db
            = db)
    ∧ ((db.delete_channel_message msg_id uid).1 = true
        → (delete_message db (Option.some u) (.str "channel") idv midv peerv chatv chanv).emits
            = [⟨"message_deleted", .messageDeleted msg_id,
                .room ("channel:" ++ toString ch)⟩])) := by
  have hbu : (u == "") = false := beq_eq_false_iff_ne.mpr hune
  refine ⟨⟨?_, ?_⟩, ⟨?_, ?_⟩, ⟨?_, ?_⟩⟩
  · intro hflag
    refine ⟨?_, ?_⟩
    · simp [delete_message, falsyOptStr, hbu, getUserIdOpt, hu, hz, hid, hflag]
    · simp [delete_message, falsyOptStr, hbu, getUserIdOpt, hu, hz, hid, hflag,
        delete_personal_unchanged_of_false db msg_id uid hflag]
  · intro hflag
    simp [delete_message, falsyOptStr, hbu, getUserIdOpt, hu, hz, hid, hflag, hp, hpz]
  · intro hflag
    refine ⟨?_, ?_⟩
    · simp [delete_message, falsyOptStr, hbu, getUserIdOpt, hu, hz, hid, hc, hflag]
    · simp [delete_message, falsyOptStr, hbu, getUserIdOpt, hu, hz, hid, hc, hflag,
        delete_chat_unchanged_of_false db msg_id uid hflag]
  · intro hflag
    simp [delete_message, falsyOptStr, hbu, getUserIdOpt, hu, hz, hid, hc, hflag]
  · intro hflag
    refine ⟨?_, ?_⟩
    · simp [delete_message, falsyOptStr, hbu, getUserIdOpt, hu, hz, hid, hch, hflag]
    · simp [delete_message, falsyOptStr, hbu, getUserIdOpt, hu, hz, hid, hch, hflag,
        delete_channel_unchanged_of_false db msg_id uid hflag]
  · intro hflag
    simp [delete_message, falsyOptStr, hbu, getUserIdOpt, hu, hz, hid, hch, hflag]

theorem delete_notice_routing_witness :
    (delete_message dbW (Option.some "alice") (.str "personal") (.str "5") .none (.str "2")
        (.str "7") (.str "9")).emits
      = [⟨"message_deleted", Payload.messageDeleted 5, Dest.room (canonicalPair 1 2)⟩]
    ∧ (delete_message dbW (Option.some "alice") (.str "chat") (.str "5") .none (.str "2")
        (.str "7") (.str "9")).emits = [] :=
  ⟨(delete_notice_routing dbW "alice" 1 (.str "5") .none (.str "2") (.str "7") (.str "9")
      5 2 7 9 (by decide) (by decide) (by decide) (by decide) (by decide) (by decide)
      (by decide) (by decide)).1.2 (by decide),
   ((delete_notice_routing dbW "alice" 1 (.str "5") .none (.str "2") (.str "7") (.str "9")
      5 2 7 9 (by decide) (by decide) (by decide) (by decide) (by decide) (by decide)
      (by decide) (by decide)).2.1.1 (by decide)).1⟩

/-- Claim C9: a personal-scope delete_message that succeeds at the store
but whose peer_id is missing, unparseable or zero emits the
message_deleted notice as a global broadcast to every connected client,
not to any conversation room. -/
theorem personal_delete_global_fallback (db : DB) (u : String) (uid : Int)
    (idv midv peerv chatv chanv : PyVal) (msg_id : Int)
    (hune : u ≠ "") (hu : db.get_user_id u = Option.some uid) (hz : uid ≠ 0)
    (hid : pyInt? (pyOr idv midv) = Option.some msg_id)
    (hpf : pyInt? peerv = Option.none ∨ pyInt? peerv = Option.some 0)
    (hok : (db.delete_personal_message msg_id uid).1 = true) :
    (delete_message db (Option.some u) (.str "personal") idv midv peerv chatv chanv).emits
      = [⟨"message_deleted", .messageDeleted msg_id, .global⟩] := by
  have hbu : (u == "") = false := beq_eq_false_iff_ne.mpr hune
  rcases hpf with hpn | hp0
  · simp [delete_message, falsyOptStr, hbu, getUserIdOpt, hu, hz, hid, hok, hpn]
  · simp [delete_message, falsyOptStr, hbu, getUserIdOpt, hu, hz, hid, hok, hp0]

theorem personal_delete_global_fallback_witness :
    (delete_message dbW (Option.some "alice") (.str "personal") (.str "5") .none (.str "xyz")
        .none .none).emits
      = [⟨"message_deleted", Payload.messageDeleted 5, Dest.global⟩] :=
  personal_delete_global_fallback dbW "alice" 1 (.str "5") .none (.str "xyz") .none .none 5
    (by decide) (by decide) (by decide) (by decide) (Or.inl (by decide)) (by decide)

